import Mathlib

/-!
Shallow embedding of the antchain Go client (package `antchain`):
the handshake/token protocol, the two call assemblers (`chainCall`,
`chainCallForBiz`), the envelope decoding in `client.do`, and the
utility `GetTokenID`.

External effects of the Go code (wall clock, RSA signing randomness,
the HTTP transport, `uuid.New()`'s random bytes) are supplied by an
`Env` oracle record; the response body is represented post-parse as a
`Json` tree (the result of `gjson.ParseBytes`).  Machine bytes are
modelled as `Nat` values below 256.
-/

set_option autoImplicit false

namespace Antchain

mutual
/-- JSON value tree, as produced by `gjson.ParseBytes` on a response body.
`num` carries an integer (the claims only exercise integral numerics;
gjson itself stores a float64).  Arrays are omitted: no claim needs them. -/
inductive Json where
  | null : Json
  | bool (b : Bool) : Json
  | num (n : Int) : Json
  | str (s : String) : Json
  | obj (fields : Fields) : Json

inductive Fields where
  | nil : Fields
  | cons (key : String) (val : Json) (rest : Fields) : Fields
end

/-- First binding of `key` in an object's field list (gjson `Get` returns
the first matching member). -/
def Fields.get : Fields → String → Option Json
  | .nil, _ => none
  | .cons k v rest, key => if k = key then some v else rest.get key

/-- `gjson` path lookup restricted to a plain top-level key, as used by
`ret.Get("success")` etc.; a non-object has no members. -/
def jget (j : Json) (key : String) : Option Json :=
  match j with
  | .obj fs => fs.get key
  | _ => none

mutual
/-- Serialization of a `Json` tree, standing for gjson's `Raw` (the verbatim
text of the value inside the body).  String escaping is not modelled. -/
def jsonRaw : Json → String
  | .null => "null"
  | .bool true => "true"
  | .bool false => "false"
  | .num n => toString n
  | .str s => "\"" ++ s ++ "\""
  | .obj fs => "\x7b" ++ fieldsRaw fs ++ "\x7d"

def fieldsRaw : Fields → String
  | .nil => ""
  | .cons k v .nil => "\"" ++ k ++ "\":" ++ jsonRaw v
  | .cons k v rest => "\"" ++ k ++ "\":" ++ jsonRaw v ++ "," ++ fieldsRaw rest
end

/-- `gjson.Result.Bool()` applied to the result of a key lookup: `True`
is true, a string is parsed leniently (`strconv.ParseBool` of its
lower-casing), a number is true iff nonzero, everything else (including
a missing key, whose result has type `Null`) is false. -/
def gjsonBool (o : Option Json) : Bool :=
  match o with
  | some (.bool b) => b
  | some (.str s) => s.toLower = "1" ∨ s.toLower = "t" ∨ s.toLower = "true"
  | some (.num n) => n ≠ 0
  | _ => false

/-- `gjson.Result.String()` applied to the result of a key lookup: a missing
key or JSON `null` gives `""`, booleans give `"true"`/`"false"`, a number its
decimal form, a string itself, and a structured value its raw text. -/
def gjsonString (o : Option Json) : String :=
  match o with
  | some (.bool true) => "true"
  | some (.bool false) => "false"
  | some (.num n) => toString n
  | some (.str s) => s
  | some (.obj fs) => jsonRaw (.obj fs)
  | _ => ""

/-- Lowercase hex digit, as used by `encoding/hex` and `github.com/google/uuid`. -/
def hexDigit (d : Nat) : Char :=
  if d < 10 then Char.ofNat (48 + d) else Char.ofNat (87 + d)

/-- Hex expansion of a byte list, two digits per byte (`hex.Encode`). -/
def hexEncodeList : List Nat → List Char
  | [] => []
  | n :: rest => hexDigit (n / 16) :: hexDigit (n % 16) :: hexEncodeList rest

/-- `hex.EncodeToString`: lowercase hex of a byte slice. -/
def hexEncode (bs : List Nat) : String :=
  String.mk (hexEncodeList bs)

/-- Value of a lowercase hex digit character (left inverse of `hexDigit`). -/
def hexVal (c : Char) : Nat :=
  if 97 ≤ c.toNat then c.toNat - 87 else c.toNat - 48

/-- Byte list recovered from a hex character list, two characters per byte. -/
def hexDecodeList : List Char → List Nat
  | c1 :: c2 :: rest => (16 * hexVal c1 + hexVal c2) :: hexDecodeList rest
  | _ => []

/-- The Go parameter bag `type X map[string]interface{}`, modelled as an
association list whose values are `Json` trees (the JSON-representable
payloads the client actually stores). -/
abbrev X := List (String × Json)

/-- Go map assignment `params[key] = value`: replace the binding in place,
or append a new one. -/
def xset : X → String → Json → X
  | [], key, v => [(key, v)]
  | (k, w) :: rest, key, v =>
      if k = key then (key, v) :: rest else (k, w) :: xset rest key v

/-- Go map read `params[key]`: the (first) binding of the key. -/
def xget : X → String → Option Json
  | [], _ => none
  | (k, w) :: rest, key => if k = key then some w else xget rest key

/-- `type ChainCallOption func(params X)`: a mutation of the parameter bag. -/
abbrev ChainCallOption := X → X

/-- `WithParam(key, value)`: the option that assigns `params[key] = value`. -/
def WithParam (key : String) (value : Json) : ChainCallOption :=
  fun params => xset params key value

/-- Protocol path constant `CHAIN_CALL_FOR_BIZ`. -/
def CHAIN_CALL_FOR_BIZ : String := "/api/contract/chainCallForBiz"

/-- Protocol path constant `CHAIN_CALL`. -/
def CHAIN_CALL : String := "/api/contract/chainCall"

/-- Protocol path constant `SHAKE_HAND`. -/
def SHAKE_HAND : String := "/api/contract/shakeHand"

/-- `uuid.New()`'s version/variant masking of the 16 random bytes:
`u[6] = (u[6] & 0x0f) | 0x40` and `u[8] = (u[8] & 0x3f) | 0x80`. -/
def uuidMask (b : List Nat) : List Nat :=
  (b.set 6 ((b.getD 6 0 &&& 15) ||| 64)).set 8 ((b.getD 8 0 &&& 63) ||| 128)

/-- `UUID.String()` character layout: hex of bytes 0-3, dash, 4-5, dash,
6-7, dash, 8-9, dash, 10-15 (the 8-4-4-4-12 grouping). -/
def uuidFormat (b : List Nat) : List Char :=
  hexEncodeList (b.take 4) ++
    '-' :: (hexEncodeList ((b.drop 4).take 2) ++
      '-' :: (hexEncodeList ((b.drop 6).take 2) ++
        '-' :: (hexEncodeList ((b.drop 8).take 2) ++
          '-' :: hexEncodeList (b.drop 10))))

/-- `uuid.New().String()` (github.com/google/uuid) as a function of the 16
random bytes the library draws: mask version 4 and the RFC 4122 variant
into the bytes, then format them as the 36-character dashed hex string. -/
def uuidNewString (b : List Nat) : String :=
  String.mk (uuidFormat (uuidMask b))

/-- Bytes recovered from a dashed hex UUID string (dashes skipped);
left inverse of `uuidNewString` up to the masking. -/
def uuidDecode (s : String) : List Nat :=
  hexDecodeList (s.data.filter (fun ch => ch != '-'))

/-- A `crypto.Hash` as the `Sign` method consumes it: availability flag,
the name used in the failure message, and the digest function. -/
structure HashAlg where
  avail : Bool
  name : String
  digest : String → List Nat

/-- `PrivateKey` holds the RSA key; `rsaSign` stands for
`rsa.SignPKCS1v15(rand.Reader, pk.key, hash, digest)` — randomized,
so it is an oracle of the environment bundled with the key. -/
structure PrivateKey where
  rsaSign : List Nat → Except String (List Nat)

/-- `PrivateKey.Sign(hash, data)`: reject an unavailable digest, otherwise
hash the data and produce the PKCS#1 v1.5 signature. -/
def PrivateKey.Sign (pk : PrivateKey) (hash : HashAlg) (data : String) :
    Except String (List Nat) :=
  if !hash.avail then
    .error ("crypto: requested hash function (" ++ hash.name ++ ") is unavailable")
  else
    pk.rsaSign (hash.digest data)

/-- `crypto.SHA256`: available (the sha256 package is linked by this very
package), with the runtime digest supplied as an oracle. -/
def SHA256 (digest : String → List Nat) : HashAlg :=
  ⟨true, "SHA-256", digest⟩

/-- The `Config` record (the signing-key path is consumed at construction
time and is not part of the call-protocol state). -/
structure Config where
  bizID : String
  endpoint : String
  tenantID : String
  accessID : String
  account : String
  myKmsKeyID : String

/-- The cancellation context as `do` observes it: whether `ctx.Done()` has
fired before the transport returned, and the message of `ctx.Err()`. -/
structure Ctx where
  done : Bool
  err : String

/-- One outgoing `POST` request: target URL and the parameter mapping that
is JSON-marshalled into its body. -/
structure Request where
  url : String
  params : X

/-- Outcome of one transport round trip: `c.cli.Do` fails, reading the
body fails, or a body arrives (already parsed by `gjson.ParseBytes`). -/
inductive TransportResult where
  | netErr (msg : String)
  | readErr (msg : String)
  | ok (body : Json)

/-- Oracle for the effects of one call: the captured wall clock
(`time.Now().UnixMilli()`), the SHA-256 digest function, the 16 random
bytes behind `uuid.New()`, and the transport's response per request. -/
structure Env where
  nowMs : Int
  sha256 : String → List Nat
  uuid : List Nat
  transport : Request → TransportResult

/-- The errors a call can surface, tagged by source so the theorems can
tell a context-cancellation error from a plain transport error. -/
inductive CallErr where
  | signing (msg : String)
  | transport (msg : String)
  | ctxCancel (msg : String)
  | readFail (msg : String)
  | remote (code data : String)
deriving DecidableEq

/-- The Go `error` message carried by each `CallErr`; the `remote` case is
`fmt.Errorf("antchain: %s | %s", code, data)`. -/
def CallErr.message : CallErr → String
  | .signing m => m
  | .transport m => m
  | .ctxCancel m => m
  | .readFail m => m
  | .remote code data => "antchain: " ++ code ++ " | " ++ data

/-- The client: configuration plus the loaded private key.  The
`http.Client` is replaced by `Env.transport`. -/
structure client where
  cfg : Config
  key : PrivateKey

/-- `client.do(ctx, reqURL, params)`: marshal the params, POST them, and
decode the envelope; if the transport fails while the context is done, the
context's error replaces the transport error.  Returns the result together
with the list of requests actually handed to the transport. -/
def client.doCall (c : client) (env : Env) (ctx : Ctx) (reqURL : String)
    (params : X) : Except CallErr String × List Request :=
  let req : Request := ⟨reqURL, params⟩
  match env.transport req with
  | .netErr m =>
      if ctx.done then (.error (.ctxCancel ctx.err), [req])
      else (.error (.transport m), [req])
  | .readErr m => (.error (.readFail m), [req])
  | .ok body =>
      if !gjsonBool (jget body "success") then
        (.error (.remote (gjsonString (jget body "code"))
                          (gjsonString (jget body "data"))), [req])
      else
        (.ok (gjsonString (jget body "data")), [req])

/-- `client.shakehand(ctx)`: sign `accessID + timeStr` with SHA-256, build
`{accessId, time, secret}`, and POST it to `endpoint + SHAKE_HAND`. -/
def client.shakehand (c : client) (env : Env) (ctx : Ctx) :
    Except CallErr String × List Request :=
  let timeStr := toString env.nowMs
  match c.key.Sign (SHA256 env.sha256) (c.cfg.accessID ++ timeStr) with
  | .error m => (.error (.signing m), [])
  | .ok sign =>
      let params : X :=
        [("accessId", .str c.cfg.accessID),
         ("time", .str timeStr),
         ("secret", .str (hexEncode sign))]
      c.doCall env ctx (c.cfg.endpoint ++ SHAKE_HAND) params

/-- `client.chainCall(ctx, method, options...)`: handshake, apply the
options to a fresh bag, inject `bizid`, `accessId`, `method`, `token`, and
POST to `endpoint + CHAIN_CALL`. -/
def client.chainCall (c : client) (env : Env) (ctx : Ctx) (method : String)
    (options : List ChainCallOption) : Except CallErr String × List Request :=
  match c.shakehand env ctx with
  | (.error e, tr) => (.error e, tr)
  | (.ok token, tr) =>
      let params := options.foldl (fun p f => f p) ([] : X)
      let params := xset params "bizid" (.str c.cfg.bizID)
      let params := xset params "accessId" (.str c.cfg.accessID)
      let params := xset params "method" (.str method)
      let params := xset params "token" (.str token)
      let r := c.doCall env ctx (c.cfg.endpoint ++ CHAIN_CALL) params
      (r.1, tr ++ r.2)

/-- `client.chainCallForBiz(ctx, method, options...)`: handshake, apply the
options, inject `orderId` (a fresh `uuid.New().String()`), `bizid`,
`account`, `mykmsKeyId`, `method`, `accessId`, `tenantid`, `token`, and
POST to `endpoint + CHAIN_CALL_FOR_BIZ`. -/
def client.chainCallForBiz (c : client) (env : Env) (ctx : Ctx) (method : String)
    (options : List ChainCallOption) : Except CallErr String × List Request :=
  match c.shakehand env ctx with
  | (.error e, tr) => (.error e, tr)
  | (.ok token, tr) =>
      let params := options.foldl (fun p f => f p) ([] : X)
      let params := xset params "orderId" (.str (uuidNewString env.uuid))
      let params := xset params "bizid" (.str c.cfg.bizID)
      let params := xset params "account" (.str c.cfg.account)
      let params := xset params "mykmsKeyId" (.str c.cfg.myKmsKeyID)
      let params := xset params "method" (.str method)
      let params := xset params "accessId" (.str c.cfg.accessID)
      let params := xset params "tenantid" (.str c.cfg.tenantID)
      let params := xset params "token" (.str token)
      let r := c.doCall env ctx (c.cfg.endpoint ++ CHAIN_CALL_FOR_BIZ) params
      (r.1, tr ++ r.2)

/-- Value of a hex digit character in any of the three ranges `0-9`,
`a-f`, `A-F` that `big.Int.SetString` accepts for base 16; `none` for
every other character. -/
def hexDigitVal (c : Char) : Option Nat :=
  if 48 ≤ c.toNat ∧ c.toNat ≤ 57 then some (c.toNat - 48)
  else if 97 ≤ c.toNat ∧ c.toNat ≤ 102 then some (c.toNat - 87)
  else if 65 ≤ c.toNat ∧ c.toNat ≤ 70 then some (c.toNat - 55)
  else none

/-- Digit loop of `big.Int.SetString` for base 16: any invalid character
aborts the whole parse. -/
def parseHexLoop : List Char → Nat → Option Nat
  | [], acc => some acc
  | ch :: rest, acc =>
      match hexDigitVal ch with
      | none => none
      | some d => parseHexLoop rest (16 * acc + d)

/-- A nonempty run of base-16 digits; the empty run is a parse failure. -/
def parseHexDigits (l : List Char) : Option Nat :=
  match l with
  | [] => none
  | _ => parseHexLoop l 0

/-- `big.NewInt(0).SetString(s, 16)`: optional leading sign, then a
nonempty run of hex digits; on any failure the returned pointer is `nil`,
modelled as `none`. -/
def bigIntSetString16 (s : String) : Option Int :=
  match s.data with
  | [] => none
  | c0 :: rest =>
      if c0 = '+' then Option.map Int.ofNat (parseHexDigits rest)
      else if c0 = '-' then Option.map (fun n => -Int.ofNat n) (parseHexDigits rest)
      else Option.map Int.ofNat (parseHexDigits (c0 :: rest))

/-- `GetTokenID(token)`: `v, _ := big.NewInt(0).SetString(token, 16)` —
the success flag is discarded and the (possibly nil) pointer returned.
`TokenID` is a nilable `*big.Int`, modelled as `Option Int`. -/
def GetTokenID (token : String) : Option Int :=
  bigIntSetString16 token

/-! ### Map lemmas -/

theorem xget_xset (p : X) (k key : String) (v : Json) :
    xget (xset p k v) key = if k = key then some v else xget p key := by
  induction p with
  | nil =>
      by_cases h : k = key <;> simp [xset, xget, h]
  | cons head rest ih =>
      obtain ⟨a, b⟩ := head
      by_cases hak : a = k
      · subst hak
        by_cases hk : a = key <;> simp [xset, xget, hk]
      · by_cases hk : a = key
        · subst hk
          have hka : ¬ k = a := fun hh => hak hh.symm
          simp [xset, xget, hak, hka]
        · simp [xset, xget, hak, hk, ih]

theorem doCall_snd (c : client) (env : Env) (ctx : Ctx) (url : String) (params : X) :
    (c.doCall env ctx url params).2 = [⟨url, params⟩] := by
  unfold client.doCall
  cases h : env.transport ⟨url, params⟩ with
  | netErr m => simp only [h]; split <;> rfl
  | readErr m => simp [h]
  | ok body => simp only [h]; split <;> rfl

/-! ### Witness fixtures: a concrete client and environments -/

/-- Concrete private key whose RSA oracle prepends a zero byte. -/
def wkey : PrivateKey := ⟨fun d => .ok (0 :: d)⟩

/-- Concrete configuration for witnesses. -/
def wcfg : Config := ⟨"biz1", "ep", "ten1", "acc1", "acct1", "kms1"⟩

/-- Concrete client for witnesses. -/
def wcli : client := ⟨wcfg, wkey⟩

/-- A context that has not been cancelled. -/
def wctxLive : Ctx := ⟨false, "context canceled"⟩

/-- A context that has been cancelled. -/
def wctxDone : Ctx := ⟨true, "context canceled"⟩

/-- The failure envelope of the spec's example body. -/
def failBody : Json :=
  .obj (.cons "success" (.bool false)
    (.cons "code" (.str "E1") (.cons "data" (.str "boom") .nil)))

/-- A success envelope with the given payload. -/
def okBody (payload : String) : Json :=
  .obj (.cons "success" (.bool true) (.cons "data" (.str payload) .nil))

/-- Environment whose transport always answers with `failBody`. -/
def wenvFail : Env :=
  ⟨1700000000000, fun _ => [7], List.range 16, fun _ => .ok failBody⟩

/-- Environment whose transport always answers `success=true, data=deadbeef`. -/
def wenvOk : Env :=
  ⟨1700000000000, fun _ => [7], List.range 16, fun _ => .ok (okBody "deadbeef")⟩

/-- Environment whose transport always fails at the network layer. -/
def wenvNet : Env :=
  ⟨1700000000000, fun _ => [7], List.range 16, fun _ => .netErr "net down"⟩

/-- Environment that answers the handshake with token `tok123` and any
other request with payload `payload`. -/
def wenvCall : Env :=
  ⟨1700000000000, fun _ => [7], List.range 16,
    fun req => if req.url = "ep" ++ SHAKE_HAND then .ok (okBody "tok123")
               else .ok (okBody "payload")⟩

/-! ### Claim C4 -/

/-- C4: when the decoded envelope is `{"success":false,"code":"E1","data":"boom"}`,
the call returns an error whose message contains both `"E1"` and `"boom"`,
and does not return `"boom"` as a successful payload. -/
theorem C4_failure_envelope_error (c : client) (env : Env) (ctx : Ctx)
    (url : String) (params : X)
    (h : env.transport ⟨url, params⟩ = .ok failBody) :
    c.doCall env ctx url params = (.error (.remote "E1" "boom"), [⟨url, params⟩])
      ∧ (c.doCall env ctx url params).1 ≠ .ok "boom"
      ∧ List.IsInfix "E1".data ((CallErr.remote "E1" "boom").message).data
      ∧ List.IsInfix "boom".data ((CallErr.remote "E1" "boom").message).data := by
  have h1 : c.doCall env ctx url params = (.error (.remote "E1" "boom"), [⟨url, params⟩]) := by
    simp only [client.doCall]
    rw [h]
    simp [failBody, jget, Fields.get, gjsonBool, gjsonString]
  refine ⟨h1, by rw [h1]; simp, by decide, by decide⟩

/-- Witness for C4 at the concrete failing environment. -/
theorem C4_failure_envelope_error_witness :
    wcli.doCall wenvFail wctxLive "u" [] = (.error (.remote "E1" "boom"), [⟨"u", []⟩])
      ∧ (wcli.doCall wenvFail wctxLive "u" []).1 ≠ .ok "boom"
      ∧ List.IsInfix "E1".data ((CallErr.remote "E1" "boom").message).data
      ∧ List.IsInfix "boom".data ((CallErr.remote "E1" "boom").message).data :=
  C4_failure_envelope_error wcli wenvFail wctxLive "u" [] rfl

/-! ### Claim C5 -/

/-- C5: when the decoded envelope is `{"success":true,"data":"deadbeef"}`,
the call returns exactly `"deadbeef"` and no error. -/
theorem C5_success_payload_passthrough (c : client) (env : Env) (ctx : Ctx)
    (url : String) (params : X)
    (h : env.transport ⟨url, params⟩ = .ok (okBody "deadbeef")) :
    c.doCall env ctx url params = (.ok "deadbeef", [⟨url, params⟩]) := by
  simp only [client.doCall]
  rw [h]
  simp [okBody, jget, Fields.get, gjsonBool, gjsonString]

/-- Witness for C5 at the concrete succeeding environment. -/
theorem C5_success_payload_passthrough_witness :
    wcli.doCall wenvOk wctxLive "u" [] = (.ok "deadbeef", [⟨"u", []⟩]) :=
  C5_success_payload_passthrough wcli wenvOk wctxLive "u" [] rfl

/-! ### Claim C7 -/

/-- C7: if the context is cancelled and the transport round trip fails, the
call's error is the context's cancellation error, not the generic transport
error. -/
theorem C7_cancellation_error_precedence (c : client) (env : Env) (ctx : Ctx)
    (url : String) (params : X) (m : String)
    (hd : ctx.done = true)
    (ht : env.transport ⟨url, params⟩ = .netErr m) :
    c.doCall env ctx url params = (.error (.ctxCancel ctx.err), [⟨url, params⟩])
      ∧ (c.doCall env ctx url params).1 ≠ .error (.transport m) := by
  have h1 : c.doCall env ctx url params = (.error (.ctxCancel ctx.err), [⟨url, params⟩]) := by
    simp only [client.doCall]
    rw [ht]
    simp [hd]
  exact ⟨h1, by rw [h1]; simp⟩

/-- Witness for C7 at a cancelled context over a failing transport. -/
theorem C7_cancellation_error_precedence_witness :
    wcli.doCall wenvNet wctxDone "u" []
        = (.error (.ctxCancel wctxDone.err), [⟨"u", []⟩])
      ∧ (wcli.doCall wenvNet wctxDone "u" []).1 ≠ .error (.transport "net down") :=
  C7_cancellation_error_precedence wcli wenvNet wctxDone "u" [] "net down" rfl rfl

/-! ### Claim C8 -/

/-- C8: envelope decoding defaults — a missing `success` field reads as
`false` (so such a body is a failure, not a payload), a missing `code`
field reads as `""`, and a `data` field that is a number or an object is
accepted through its string projection. -/
theorem C8_envelope_decode_defaults (c : client) (env : Env) (ctx : Ctx)
    (url : String) (params : X) (body : Json) (n : Int) (fs : Fields)
    (h1 : env.transport ⟨url, params⟩ = .ok body)
    (h2 : jget body "success" = none) :
    gjsonBool none = false
      ∧ gjsonString none = ""
      ∧ c.doCall env ctx url params
          = (.error (.remote (gjsonString (jget body "code"))
                             (gjsonString (jget body "data"))), [⟨url, params⟩])
      ∧ gjsonString (some (.num n)) = toString n
      ∧ gjsonString (some (.obj fs)) = jsonRaw (.obj fs) := by
  refine ⟨rfl, rfl, ?_, rfl, rfl⟩
  simp only [client.doCall]
  rw [h1]
  dsimp only
  rw [h2]
  simp [gjsonBool]

/-- Witness for C8 at a body carrying no `success` member. -/
theorem C8_envelope_decode_defaults_witness :
    gjsonBool none = false
      ∧ gjsonString none = ""
      ∧ wcli.doCall ⟨0, fun _ => [], [], fun _ => .ok (.obj .nil)⟩ wctxLive "u" []
          = (.error (.remote (gjsonString (jget (.obj .nil) "code"))
                             (gjsonString (jget (.obj .nil) "data"))), [⟨"u", []⟩])
      ∧ gjsonString (some (.num 42)) = toString (42 : Int)
      ∧ gjsonString (some (.obj .nil)) = jsonRaw (.obj .nil) :=
  C8_envelope_decode_defaults wcli ⟨0, fun _ => [], [], fun _ => .ok (.obj .nil)⟩
    wctxLive "u" [] (.obj .nil) 42 .nil rfl rfl

/-! ### Claim C10 -/

theorem parseHexLoop_none (c : Char) (l : List Char) (hc : c ∈ l)
    (hv : hexDigitVal c = none) : ∀ acc, parseHexLoop l acc = none := by
  induction l with
  | nil => cases hc
  | cons ch rest ih =>
      intro acc
      rcases List.mem_cons.mp hc with rfl | hmem
      · simp [parseHexLoop, hv]
      · cases hd : hexDigitVal ch with
        | none => simp [parseHexLoop, hd]
        | some d => simp [parseHexLoop, hd, ih hmem]

theorem parseHexDigits_none (c : Char) (l : List Char) (hc : c ∈ l)
    (hv : hexDigitVal c = none) : parseHexDigits l = none := by
  cases l with
  | nil => rfl
  | cons ch rest => simpa [parseHexDigits] using parseHexLoop_none c _ hc hv 0

theorem parseHexLoop_isSome (l : List Char)
    (h : ∀ c ∈ l, (hexDigitVal c).isSome) :
    ∀ acc, (parseHexLoop l acc).isSome := by
  induction l with
  | nil => intro acc; simp [parseHexLoop]
  | cons ch rest ih =>
      intro acc
      have hch := h ch (by simp)
      cases hv : hexDigitVal ch with
      | none => rw [hv] at hch; simp at hch
      | some d =>
          simp only [parseHexLoop, hv]
          exact ih (fun c hc => h c (List.mem_cons_of_mem _ hc)) _

theorem parseHexDigits_eq_none_iff (l : List Char) :
    parseHexDigits l = none ↔ l = [] ∨ ∃ c ∈ l, hexDigitVal c = none := by
  constructor
  · intro h
    cases l with
    | nil => exact Or.inl rfl
    | cons a rest =>
        right
        by_contra hno
        push_neg at hno
        have hall : ∀ c ∈ a :: rest, (hexDigitVal c).isSome :=
          fun c hc => Option.ne_none_iff_isSome.mp (hno c hc)
        have hs := parseHexLoop_isSome _ hall 0
        have h2 : parseHexLoop (a :: rest) 0 = none := h
        rw [h2] at hs
        simp at hs
  · rintro (rfl | ⟨c, hc, hv⟩)
    · rfl
    · exact parseHexDigits_none c l hc hv

/-- The digit run that `big.NewInt(0).SetString(s, 16)` scans: the whole
character list, less a single optional leading sign. -/
def base16Digits (s : String) : List Char :=
  match s.data with
  | [] => []
  | c0 :: rest => if c0 = '+' ∨ c0 = '-' then rest else c0 :: rest

/-- The claim's notion of a valid base-16 numeral, stated independently of
the parser: an optional leading sign followed by a nonempty run of hex
digits (`0-9`, `a-f`, `A-F`). -/
def validBase16 (s : String) : Bool :=
  !(base16Digits s).isEmpty
    && (base16Digits s).all (fun c => (hexDigitVal c).isSome)

theorem parseHexDigits_none_iff_invalid (digits : List Char) :
    parseHexDigits digits = none
      ↔ (!digits.isEmpty && digits.all (fun c => (hexDigitVal c).isSome))
          = false := by
  rw [parseHexDigits_eq_none_iff]
  simp [List.isEmpty_iff, Option.not_isSome_iff_eq_none]
  tauto

/-- C10: `GetTokenID` returns a nil `TokenID` (and reports no error) on
exactly the inputs that are not valid base-16 numerals — the empty string,
strings whose leading character is non-hex and not a sign, strings with a
non-hex character anywhere later, and bare signs; the parse failure of the
big-integer conversion is silently discarded. -/
theorem C10_GetTokenID_nil_on_parse_failure (s : String) :
    (GetTokenID s = none ↔ validBase16 s = false)
      ∧ GetTokenID "" = none ∧ GetTokenID "g5" = none
      ∧ GetTokenID "xff" = none ∧ GetTokenID "+" = none
      ∧ GetTokenID "-" = none := by
  refine ⟨?_, rfl, by decide, by decide, by decide, by decide⟩
  unfold GetTokenID bigIntSetString16 validBase16 base16Digits
  cases hd : s.data with
  | nil => simp
  | cons c0 rest =>
      by_cases hp : c0 = '+'
      · simp [hp, Option.map_eq_none', parseHexDigits_none_iff_invalid]
      · by_cases hm : c0 = '-'
        · simp [hp, hm, Option.map_eq_none', parseHexDigits_none_iff_invalid]
        · simp [hp, hm, Option.map_eq_none', parseHexDigits_none_iff_invalid]

/-! ### Claim C6 -/

theorem xget_foldl_xset (kvs : List (String × Json)) (p : X) (key : String) :
    xget (kvs.foldl (fun q kv => xset q kv.1 kv.2) p) key =
      match kvs.reverse.find? (fun kv => kv.1 == key) with
      | some kv => some kv.2
      | none => xget p key := by
  induction kvs generalizing p with
  | nil => simp
  | cons a rest ih =>
      simp only [List.foldl_cons, List.reverse_cons, List.find?_append]
      rw [ih]
      cases hfind : rest.reverse.find? (fun kv => kv.1 == key) with
      | some kv => simp [Option.or]
      | none =>
          simp only [Option.none_or]
          rw [xget_xset]
          cases hbeq : (a.1 == key) with
          | true =>
              have : a.1 = key := by simpa using hbeq
              simp [List.find?, hbeq, this]
          | false =>
              have : ¬ a.1 = key := by simpa using hbeq
              simp [List.find?, hbeq, this]

/-- C6: applying `WithParam` injectors in order is last-write-wins — the
assembled bag's binding for each key is the value of the last injector
that set it (and absent if none set it). -/
theorem C6_options_last_write_wins (kvs : List (String × Json)) (key : String) :
    xget ((kvs.map (fun kv => WithParam kv.1 kv.2)).foldl (fun p f => f p) ([] : X)) key
      = (kvs.reverse.find? (fun kv => kv.1 == key)).map (fun kv => kv.2) := by
  rw [List.foldl_map]
  simp only [WithParam]
  rw [xget_foldl_xset]
  cases kvs.reverse.find? (fun kv => kv.1 == key) <;> simp [xget]

/-! ### Claim C1 -/

/-- C1: the handshake builds its request deterministically from the captured
wall-clock time — it signs `accessID ++ timeStr` (no separator) with
SHA-256, builds exactly `{accessId, time: timeStr, secret: hex(signature)}`,
and POSTs that mapping to `endpoint ++ "/api/contract/shakeHand"`. -/
theorem C1_shakehand_builds_signed_request (c : client) (env : Env) (ctx : Ctx)
    (sig : List Nat)
    (h : c.key.Sign (SHA256 env.sha256) (c.cfg.accessID ++ toString env.nowMs)
          = .ok sig) :
    (c.shakehand env ctx).2 =
      [⟨c.cfg.endpoint ++ SHAKE_HAND,
        [("accessId", .str c.cfg.accessID),
         ("time", .str (toString env.nowMs)),
         ("secret", .str (hexEncode sig))]⟩] := by
  simp only [client.shakehand]
  rw [h]
  exact doCall_snd c env ctx _ _

/-- Witness for C1 at the concrete client and environment. -/
theorem C1_shakehand_builds_signed_request_witness :
    (wcli.shakehand wenvCall wctxLive).2 =
      [⟨wcfg.endpoint ++ SHAKE_HAND,
        [("accessId", .str wcfg.accessID),
         ("time", .str (toString wenvCall.nowMs)),
         ("secret", .str (hexEncode [0, 7]))]⟩] :=
  C1_shakehand_builds_signed_request wcli wenvCall wctxLive [0, 7] rfl

/-! ### Claim C2 -/

/-- C2: each of `chainCall` and `chainCallForBiz` performs a full handshake
immediately before assembling its parameters — the requests it issues are
exactly the handshake's requests followed by one call request — and the
call request's `token` field equals the payload string that this
handshake returned; no token is carried over from anywhere else. -/
theorem C2_fresh_handshake_token_per_call (c : client) (env : Env) (ctx : Ctx)
    (method : String) (opts : List ChainCallOption) (tok : String)
    (tr : List Request)
    (h : c.shakehand env ctx = (.ok tok, tr)) :
    (c.chainCall env ctx method opts).2
        = tr ++ [⟨c.cfg.endpoint ++ CHAIN_CALL,
            xset (xset (xset (xset (opts.foldl (fun p f => f p) ([] : X))
              "bizid" (.str c.cfg.bizID)) "accessId" (.str c.cfg.accessID))
              "method" (.str method)) "token" (.str tok)⟩]
      ∧ xget (xset (xset (xset (xset (opts.foldl (fun p f => f p) ([] : X))
              "bizid" (.str c.cfg.bizID)) "accessId" (.str c.cfg.accessID))
              "method" (.str method)) "token" (.str tok)) "token"
          = some (.str tok)
      ∧ (c.chainCallForBiz env ctx method opts).2
        = tr ++ [⟨c.cfg.endpoint ++ CHAIN_CALL_FOR_BIZ,
            xset (xset (xset (xset (xset (xset (xset (xset
              (opts.foldl (fun p f => f p) ([] : X))
              "orderId" (.str (uuidNewString env.uuid)))
              "bizid" (.str c.cfg.bizID)) "account" (.str c.cfg.account))
              "mykmsKeyId" (.str c.cfg.myKmsKeyID)) "method" (.str method))
              "accessId" (.str c.cfg.accessID)) "tenantid" (.str c.cfg.tenantID))
              "token" (.str tok)⟩]
      ∧ xget (xset (xset (xset (xset (xset (xset (xset (xset
              (opts.foldl (fun p f => f p) ([] : X))
              "orderId" (.str (uuidNewString env.uuid)))
              "bizid" (.str c.cfg.bizID)) "account" (.str c.cfg.account))
              "mykmsKeyId" (.str c.cfg.myKmsKeyID)) "method" (.str method))
              "accessId" (.str c.cfg.accessID)) "tenantid" (.str c.cfg.tenantID))
              "token" (.str tok)) "token"
          = some (.str tok) := by
  refine ⟨?_, ?_, ?_, ?_⟩
  · simp only [client.chainCall, h]
    rw [doCall_snd]
  · rw [xget_xset]
    simp
  · simp only [client.chainCallForBiz, h]
    rw [doCall_snd]
  · rw [xget_xset]
    simp

/-- Witness for C2 at the concrete client and environment. -/
theorem C2_fresh_handshake_token_per_call_witness :
    (wcli.chainCall wenvCall wctxLive "Q" []).2
        = [⟨"ep" ++ SHAKE_HAND,
            [("accessId", .str "acc1"), ("time", .str "1700000000000"),
             ("secret", .str (hexEncode [0, 7]))]⟩]
          ++ [⟨wcfg.endpoint ++ CHAIN_CALL,
            xset (xset (xset (xset (([] : List ChainCallOption).foldl
              (fun p f => f p) ([] : X))
              "bizid" (.str wcfg.bizID)) "accessId" (.str wcfg.accessID))
              "method" (.str "Q")) "token" (.str "tok123")⟩]
      ∧ xget (xset (xset (xset (xset (([] : List ChainCallOption).foldl
              (fun p f => f p) ([] : X))
              "bizid" (.str wcfg.bizID)) "accessId" (.str wcfg.accessID))
              "method" (.str "Q")) "token" (.str "tok123")) "token"
          = some (.str "tok123")
      ∧ (wcli.chainCallForBiz wenvCall wctxLive "Q" []).2
        = [⟨"ep" ++ SHAKE_HAND,
            [("accessId", .str "acc1"), ("time", .str "1700000000000"),
             ("secret", .str (hexEncode [0, 7]))]⟩]
          ++ [⟨wcfg.endpoint ++ CHAIN_CALL_FOR_BIZ,
            xset (xset (xset (xset (xset (xset (xset (xset
              (([] : List ChainCallOption).foldl (fun p f => f p) ([] : X))
              "orderId" (.str (uuidNewString wenvCall.uuid)))
              "bizid" (.str wcfg.bizID)) "account" (.str wcfg.account))
              "mykmsKeyId" (.str wcfg.myKmsKeyID)) "method" (.str "Q"))
              "accessId" (.str wcfg.accessID)) "tenantid" (.str wcfg.tenantID))
              "token" (.str "tok123")⟩]
      ∧ xget (xset (xset (xset (xset (xset (xset (xset (xset
              (([] : List ChainCallOption).foldl (fun p f => f p) ([] : X))
              "orderId" (.str (uuidNewString wenvCall.uuid)))
              "bizid" (.str wcfg.bizID)) "account" (.str wcfg.account))
              "mykmsKeyId" (.str wcfg.myKmsKeyID)) "method" (.str "Q"))
              "accessId" (.str wcfg.accessID)) "tenantid" (.str wcfg.tenantID))
              "token" (.str "tok123")) "token"
          = some (.str "tok123") :=
  C2_fresh_handshake_token_per_call wcli wenvCall wctxLive "Q" [] "tok123"
    [⟨"ep" ++ SHAKE_HAND,
      [("accessId", .str "acc1"), ("time", .str "1700000000000"),
       ("secret", .str (hexEncode [0, 7]))]⟩] rfl

/-! ### Claim C9 -/

/-- C9: the protocol-injected assignments run after the option loop, so the
final mapping's `bizid`, `accessId`, `method` and `token` entries — and for
business-scoped calls also `orderId`, `account`, `mykmsKeyId` and
`tenantid` — equal the injected values no matter what any caller option
wrote to those keys. -/
theorem C9_injected_fields_override_options (c : client) (env : Env) (ctx : Ctx)
    (method : String) (opts : List ChainCallOption) (tok : String)
    (tr : List Request)
    (h : c.shakehand env ctx = (.ok tok, tr)) :
    ((c.chainCall env ctx method opts).2
        = tr ++ [⟨c.cfg.endpoint ++ CHAIN_CALL,
            xset (xset (xset (xset (opts.foldl (fun p f => f p) ([] : X))
              "bizid" (.str c.cfg.bizID)) "accessId" (.str c.cfg.accessID))
              "method" (.str method)) "token" (.str tok)⟩]
      ∧ xget (xset (xset (xset (xset (opts.foldl (fun p f => f p) ([] : X))
              "bizid" (.str c.cfg.bizID)) "accessId" (.str c.cfg.accessID))
              "method" (.str method)) "token" (.str tok)) "bizid"
          = some (.str c.cfg.bizID)
      ∧ xget (xset (xset (xset (xset (opts.foldl (fun p f => f p) ([] : X))
              "bizid" (.str c.cfg.bizID)) "accessId" (.str c.cfg.accessID))
              "method" (.str method)) "token" (.str tok)) "accessId"
          = some (.str c.cfg.accessID)
      ∧ xget (xset (xset (xset (xset (opts.foldl (fun p f => f p) ([] : X))
              "bizid" (.str c.cfg.bizID)) "accessId" (.str c.cfg.accessID))
              "method" (.str method)) "token" (.str tok)) "method"
          = some (.str method)
      ∧ xget (xset (xset (xset (xset (opts.foldl (fun p f => f p) ([] : X))
              "bizid" (.str c.cfg.bizID)) "accessId" (.str c.cfg.accessID))
              "method" (.str method)) "token" (.str tok)) "token"
          = some (.str tok))
    ∧ ((c.chainCallForBiz env ctx method opts).2
        = tr ++ [⟨c.cfg.endpoint ++ CHAIN_CALL_FOR_BIZ,
            xset (xset (xset (xset (xset (xset (xset (xset
              (opts.foldl (fun p f => f p) ([] : X))
              "orderId" (.str (uuidNewString env.uuid)))
              "bizid" (.str c.cfg.bizID)) "account" (.str c.cfg.account))
              "mykmsKeyId" (.str c.cfg.myKmsKeyID)) "method" (.str method))
              "accessId" (.str c.cfg.accessID)) "tenantid" (.str c.cfg.tenantID))
              "token" (.str tok)⟩]
      ∧ xget (xset (xset (xset (xset (xset (xset (xset (xset
              (opts.foldl (fun p f => f p) ([] : X))
              "orderId" (.str (uuidNewString env.uuid)))
              "bizid" (.str c.cfg.bizID)) "account" (.str c.cfg.account))
              "mykmsKeyId" (.str c.cfg.myKmsKeyID)) "method" (.str method))
              "accessId" (.str c.cfg.accessID)) "tenantid" (.str c.cfg.tenantID))
              "token" (.str tok)) "orderId"
          = some (.str (uuidNewString env.uuid))
      ∧ xget (xset (xset (xset (xset (xset (xset (xset (xset
              (opts.foldl (fun p f => f p) ([] : X))
              "orderId" (.str (uuidNewString env.uuid)))
              "bizid" (.str c.cfg.bizID)) "account" (.str c.cfg.account))
              "mykmsKeyId" (.str c.cfg.myKmsKeyID)) "method" (.str method))
              "accessId" (.str c.cfg.accessID)) "tenantid" (.str c.cfg.tenantID))
              "token" (.str tok)) "bizid"
          = some (.str c.cfg.bizID)
      ∧ xget (xset (xset (xset (xset (xset (xset (xset (xset
              (opts.foldl (fun p f => f p) ([] : X))
              "orderId" (.str (uuidNewString env.uuid)))
              "bizid" (.str c.cfg.bizID)) "account" (.str c.cfg.account))
              "mykmsKeyId" (.str c.cfg.myKmsKeyID)) "method" (.str method))
              "accessId" (.str c.cfg.accessID)) "tenantid" (.str c.cfg.tenantID))
              "token" (.str tok)) "account"
          = some (.str c.cfg.account)
      ∧ xget (xset (xset (xset (xset (xset (xset (xset (xset
              (opts.foldl (fun p f => f p) ([] : X))
              "orderId" (.str (uuidNewString env.uuid)))
              "bizid" (.str c.cfg.bizID)) "account" (.str c.cfg.account))
              "mykmsKeyId" (.str c.cfg.myKmsKeyID)) "method" (.str method))
              "accessId" (.str c.cfg.accessID)) "tenantid" (.str c.cfg.tenantID))
              "token" (.str tok)) "mykmsKeyId"
          = some (.str c.cfg.myKmsKeyID)
      ∧ xget (xset (xset (xset (xset (xset (xset (xset (xset
              (opts.foldl (fun p f => f p) ([] : X))
              "orderId" (.str (uuidNewString env.uuid)))
              "bizid" (.str c.cfg.bizID)) "account" (.str c.cfg.account))
              "mykmsKeyId" (.str c.cfg.myKmsKeyID)) "method" (.str method))
              "accessId" (.str c.cfg.accessID)) "tenantid" (.str c.cfg.tenantID))
              "token" (.str tok)) "method"
          = some (.str method)
      ∧ xget (xset (xset (xset (xset (xset (xset (xset (xset
              (opts.foldl (fun p f => f p) ([] : X))
              "orderId" (.str (uuidNewString env.uuid)))
              "bizid" (.str c.cfg.bizID)) "account" (.str c.cfg.account))
              "mykmsKeyId" (.str c.cfg.myKmsKeyID)) "method" (.str method))
              "accessId" (.str c.cfg.accessID)) "tenantid" (.str c.cfg.tenantID))
              "token" (.str tok)) "accessId"
          = some (.str c.cfg.accessID)
      ∧ xget (xset (xset (xset (xset (xset (xset (xset (xset
              (opts.foldl (fun p f => f p) ([] : X))
              "orderId" (.str (uuidNewString env.uuid)))
              "bizid" (.str c.cfg.bizID)) "account" (.str c.cfg.account))
              "mykmsKeyId" (.str c.cfg.myKmsKeyID)) "method" (.str method))
              "accessId" (.str c.cfg.accessID)) "tenantid" (.str c.cfg.tenantID))
              "token" (.str tok)) "tenantid"
          = some (.str c.cfg.tenantID)
      ∧ xget (xset (xset (xset (xset (xset (xset (xset (xset
              (opts.foldl (fun p f => f p) ([] : X))
              "orderId" (.str (uuidNewString env.uuid)))
              "bizid" (.str c.cfg.bizID)) "account" (.str c.cfg.account))
              "mykmsKeyId" (.str c.cfg.myKmsKeyID)) "method" (.str method))
              "accessId" (.str c.cfg.accessID)) "tenantid" (.str c.cfg.tenantID))
              "token" (.str tok)) "token"
          = some (.str tok)) := by
  constructor
  · refine ⟨?_, ?_, ?_, ?_, ?_⟩
    · simp only [client.chainCall, h]
      rw [doCall_snd]
    all_goals simp [xget_xset]
  · refine ⟨?_, ?_, ?_, ?_, ?_, ?_, ?_, ?_, ?_⟩
    · simp only [client.chainCallForBiz, h]
      rw [doCall_snd]
    all_goals simp [xget_xset]

/-- Witness for C9 at the concrete client, with an option that tries to
overwrite the `token` key. -/
theorem C9_injected_fields_override_options_witness :
    ((wcli.chainCall wenvCall wctxLive "Q" [WithParam "token" (.str "evil")]).2
        = [⟨"ep" ++ SHAKE_HAND,
            [("accessId", .str "acc1"), ("time", .str "1700000000000"),
             ("secret", .str (hexEncode [0, 7]))]⟩]
          ++ [⟨wcfg.endpoint ++ CHAIN_CALL,
            xset (xset (xset (xset ([WithParam "token" (.str "evil")].foldl
              (fun p f => f p) ([] : X))
              "bizid" (.str wcfg.bizID)) "accessId" (.str wcfg.accessID))
              "method" (.str "Q")) "token" (.str "tok123")⟩]
      ∧ xget (xset (xset (xset (xset ([WithParam "token" (.str "evil")].foldl
              (fun p f => f p) ([] : X))
              "bizid" (.str wcfg.bizID)) "accessId" (.str wcfg.accessID))
              "method" (.str "Q")) "token" (.str "tok123")) "bizid"
          = some (.str wcfg.bizID)
      ∧ xget (xset (xset (xset (xset ([WithParam "token" (.str "evil")].foldl
              (fun p f => f p) ([] : X))
              "bizid" (.str wcfg.bizID)) "accessId" (.str wcfg.accessID))
              "method" (.str "Q")) "token" (.str "tok123")) "accessId"
          = some (.str wcfg.accessID)
      ∧ xget (xset (xset (xset (xset ([WithParam "token" (.str "evil")].foldl
              (fun p f => f p) ([] : X))
              "bizid" (.str wcfg.bizID)) "accessId" (.str wcfg.accessID))
              "method" (.str "Q")) "token" (.str "tok123")) "method"
          = some (.str "Q")
      ∧ xget (xset (xset (xset (xset ([WithParam "token" (.str "evil")].foldl
              (fun p f => f p) ([] : X))
              "bizid" (.str wcfg.bizID)) "accessId" (.str wcfg.accessID))
              "method" (.str "Q")) "token" (.str "tok123")) "token"
          = some (.str "tok123"))
    ∧ ((wcli.chainCallForBiz wenvCall wctxLive "Q"
            [WithParam "token" (.str "evil")]).2
        = [⟨"ep" ++ SHAKE_HAND,
            [("accessId", .str "acc1"), ("time", .str "1700000000000"),
             ("secret", .str (hexEncode [0, 7]))]⟩]
          ++ [⟨wcfg.endpoint ++ CHAIN_CALL_FOR_BIZ,
            xset (xset (xset (xset (xset (xset (xset (xset
              ([WithParam "token" (.str "evil")].foldl (fun p f => f p) ([] : X))
              "orderId" (.str (uuidNewString wenvCall.uuid)))
              "bizid" (.str wcfg.bizID)) "account" (.str wcfg.account))
              "mykmsKeyId" (.str wcfg.myKmsKeyID)) "method" (.str "Q"))
              "accessId" (.str wcfg.accessID)) "tenantid" (.str wcfg.tenantID))
              "token" (.str "tok123")⟩]
      ∧ xget (xset (xset (xset (xset (xset (xset (xset (xset
              ([WithParam "token" (.str "evil")].foldl (fun p f => f p) ([] : X))
              "orderId" (.str (uuidNewString wenvCall.uuid)))
              "bizid" (.str wcfg.bizID)) "account" (.str wcfg.account))
              "mykmsKeyId" (.str wcfg.myKmsKeyID)) "method" (.str "Q"))
              "accessId" (.str wcfg.accessID)) "tenantid" (.str wcfg.tenantID))
              "token" (.str "tok123")) "orderId"
          = some (.str (uuidNewString wenvCall.uuid))
      ∧ xget (xset (xset (xset (xset (xset (xset (xset (xset
              ([WithParam "token" (.str "evil")].foldl (fun p f => f p) ([] : X))
              "orderId" (.str (uuidNewString wenvCall.uuid)))
              "bizid" (.str wcfg.bizID)) "account" (.str wcfg.account))
              "mykmsKeyId" (.str wcfg.myKmsKeyID)) "method" (.str "Q"))
              "accessId" (.str wcfg.accessID)) "tenantid" (.str wcfg.tenantID))
              "token" (.str "tok123")) "bizid"
          = some (.str wcfg.bizID)
      ∧ xget (xset (xset (xset (xset (xset (xset (xset (xset
              ([WithParam "token" (.str "evil")].foldl (fun p f => f p) ([] : X))
              "orderId" (.str (uuidNewString wenvCall.uuid)))
              "bizid" (.str wcfg.bizID)) "account" (.str wcfg.account))
              "mykmsKeyId" (.str wcfg.myKmsKeyID)) "method" (.str "Q"))
              "accessId" (.str wcfg.accessID)) "tenantid" (.str wcfg.tenantID))
              "token" (.str "tok123")) "account"
          = some (.str wcfg.account)
      ∧ xget (xset (xset (xset (xset (xset (xset (xset (xset
              ([WithParam "token" (.str "evil")].foldl (fun p f => f p) ([] : X))
              "orderId" (.str (uuidNewString wenvCall.uuid)))
              "bizid" (.str wcfg.bizID)) "account" (.str wcfg.account))
              "mykmsKeyId" (.str wcfg.myKmsKeyID)) "method" (.str "Q"))
              "accessId" (.str wcfg.accessID)) "tenantid" (.str wcfg.tenantID))
              "token" (.str "tok123")) "mykmsKeyId"
          = some (.str wcfg.myKmsKeyID)
      ∧ xget (xset (xset (xset (xset (xset (xset (xset (xset
              ([WithParam "token" (.str "evil")].foldl (fun p f => f p) ([] : X))
              "orderId" (.str (uuidNewString wenvCall.uuid)))
              "bizid" (.str wcfg.bizID)) "account" (.str wcfg.account))
              "mykmsKeyId" (.str wcfg.myKmsKeyID)) "method" (.str "Q"))
              "accessId" (.str wcfg.accessID)) "tenantid" (.str wcfg.tenantID))
              "token" (.str "tok123")) "method"
          = some (.str "Q")
      ∧ xget (xset (xset (xset (xset (xset (xset (xset (xset
              ([WithParam "token" (.str "evil")].foldl (fun p f => f p) ([] : X))
              "orderId" (.str (uuidNewString wenvCall.uuid)))
              "bizid" (.str wcfg.bizID)) "account" (.str wcfg.account))
              "mykmsKeyId" (.str wcfg.myKmsKeyID)) "method" (.str "Q"))
              "accessId" (.str wcfg.accessID)) "tenantid" (.str wcfg.tenantID))
              "token" (.str "tok123")) "accessId"
          = some (.str wcfg.accessID)
      ∧ xget (xset (xset (xset (xset (xset (xset (xset (xset
              ([WithParam "token" (.str "evil")].foldl (fun p f => f p) ([] : X))
              "orderId" (.str (uuidNewString wenvCall.uuid)))
              "bizid" (.str wcfg.bizID)) "account" (.str wcfg.account))
              "mykmsKeyId" (.str wcfg.myKmsKeyID)) "method" (.str "Q"))
              "accessId" (.str wcfg.accessID)) "tenantid" (.str wcfg.tenantID))
              "token" (.str "tok123")) "tenantid"
          = some (.str wcfg.tenantID)
      ∧ xget (xset (xset (xset (xset (xset (xset (xset (xset
              ([WithParam "token" (.str "evil")].foldl (fun p f => f p) ([] : X))
              "orderId" (.str (uuidNewString wenvCall.uuid)))
              "bizid" (.str wcfg.bizID)) "account" (.str wcfg.account))
              "mykmsKeyId" (.str wcfg.myKmsKeyID)) "method" (.str "Q"))
              "accessId" (.str wcfg.accessID)) "tenantid" (.str wcfg.tenantID))
              "token" (.str "tok123")) "token"
          = some (.str "tok123")) :=
  C9_injected_fields_override_options wcli wenvCall wctxLive "Q"
    [WithParam "token" (.str "evil")] "tok123"
    [⟨"ep" ++ SHAKE_HAND,
      [("accessId", .str "acc1"), ("time", .str "1700000000000"),
       ("secret", .str (hexEncode [0, 7]))]⟩] rfl

/-! ### Claim C3: UUID lemmas -/

theorem hexVal_hexDigit : ∀ d : Nat, d < 16 → hexVal (hexDigit d) = d := by
  decide

theorem hexDigit_ne_dash : ∀ d : Nat, d < 16 → hexDigit d ≠ '-' := by
  decide

theorem hexEncodeList_append (l1 l2 : List Nat) :
    hexEncodeList (l1 ++ l2) = hexEncodeList l1 ++ hexEncodeList l2 := by
  induction l1 with
  | nil => rfl
  | cons n rest ih => simp [hexEncodeList, ih]

theorem hexEncodeList_length (l : List Nat) :
    (hexEncodeList l).length = 2 * l.length := by
  induction l with
  | nil => rfl
  | cons n rest ih =>
      simp only [hexEncodeList, List.length_cons, ih]
      omega

theorem hexDecode_hexEncode (l : List Nat) (h : ∀ n ∈ l, n < 256) :
    hexDecodeList (hexEncodeList l) = l := by
  induction l with
  | nil => rfl
  | cons n rest ih =>
      have hn : n < 256 := h n (by simp)
      have h1 : n / 16 < 16 :=
        (Nat.div_lt_iff_lt_mul (by norm_num : 0 < 16)).mpr (by omega)
      have h2 : n % 16 < 16 := Nat.mod_lt _ (by norm_num)
      simp only [hexEncodeList, hexDecodeList]
      rw [hexVal_hexDigit _ h1, hexVal_hexDigit _ h2]
      have hrest := ih (fun m hm => h m (List.mem_cons_of_mem _ hm))
      rw [hrest]
      have : 16 * (n / 16) + n % 16 = n := by omega
      rw [this]

theorem filter_hexEncodeList (l : List Nat) (h : ∀ n ∈ l, n < 256) :
    (hexEncodeList l).filter (fun ch => ch != '-') = hexEncodeList l := by
  induction l with
  | nil => rfl
  | cons n rest ih =>
      have hn : n < 256 := h n (by simp)
      have h1 : n / 16 < 16 :=
        (Nat.div_lt_iff_lt_mul (by norm_num : 0 < 16)).mpr (by omega)
      have h2 : n % 16 < 16 := Nat.mod_lt _ (by norm_num)
      have d1 : (hexDigit (n / 16) != '-') = true := by
        simpa using hexDigit_ne_dash _ h1
      have d2 : (hexDigit (n % 16) != '-') = true := by
        simpa using hexDigit_ne_dash _ h2
      simp [hexEncodeList, List.filter_cons, d1, d2,
        ih (fun m hm => h m (List.mem_cons_of_mem _ hm))]

theorem uuidMask_length (b : List Nat) : (uuidMask b).length = b.length := by
  simp [uuidMask]

theorem uuidMask_lt (b : List Nat) (h : ∀ n ∈ b, n < 256) :
    ∀ n ∈ uuidMask b, n < 256 := by
  intro n hn
  have hv : n ∈ b ∨ n = (b.getD 6 0 &&& 15) ||| 64 ∨ n = (b.getD 8 0 &&& 63) ||| 128 := by
    unfold uuidMask at hn
    rcases List.mem_or_eq_of_mem_set hn with hn8 | he8
    · rcases List.mem_or_eq_of_mem_set hn8 with hb | he6
      · exact Or.inl hb
      · exact Or.inr (Or.inl he6)
    · exact Or.inr (Or.inr he8)
  rcases hv with hb | rfl | rfl
  · exact h n hb
  · have hx : b.getD 6 0 &&& 15 < 2 ^ 8 := by
      have := Nat.and_le_right (n := b.getD 6 0) (m := 15)
      omega
    have hy : (64 : Nat) < 2 ^ 8 := by norm_num
    have := Nat.or_lt_two_pow hx hy
    simpa using this
  · have hx : b.getD 8 0 &&& 63 < 2 ^ 8 := by
      have := Nat.and_le_right (n := b.getD 8 0) (m := 63)
      omega
    have hy : (128 : Nat) < 2 ^ 8 := by norm_num
    have := Nat.or_lt_two_pow hx hy
    simpa using this

theorem uuidNewString_length (b : List Nat) (h : b.length = 16) :
    (uuidNewString b).length = 36 := by
  have hm : (uuidMask b).length = 16 := by rw [uuidMask_length, h]
  show (uuidFormat (uuidMask b)).length = 36
  simp [uuidFormat, hexEncodeList_length, hm]

theorem take_drop_reassemble (m : List Nat) :
    m.take 4 ++ ((m.drop 4).take 2 ++ ((m.drop 6).take 2 ++
      ((m.drop 8).take 2 ++ m.drop 10))) = m := by
  have e10 : (m.drop 8).take 2 ++ m.drop 10 = m.drop 8 := by
    have hd : m.drop 10 = (m.drop 8).drop 2 := by simp
    rw [hd, List.take_append_drop]
  have e8 : (m.drop 6).take 2 ++ m.drop 8 = m.drop 6 := by
    have hd : m.drop 8 = (m.drop 6).drop 2 := by simp
    rw [hd, List.take_append_drop]
  have e6 : (m.drop 4).take 2 ++ m.drop 6 = m.drop 4 := by
    have hd : m.drop 6 = (m.drop 4).drop 2 := by simp
    rw [hd, List.take_append_drop]
  rw [e10, e8, e6, List.take_append_drop]

theorem filter_dash_cons (l : List Char) :
    List.filter (fun ch => ch != '-') ('-' :: l)
      = List.filter (fun ch => ch != '-') l := by
  simp [List.filter_cons]

theorem uuidDecode_uuidNewString (b : List Nat) (hb : ∀ n ∈ b, n < 256) :
    uuidDecode (uuidNewString b) = uuidMask b := by
  have hmb : ∀ n ∈ uuidMask b, n < 256 := uuidMask_lt b hb
  show hexDecodeList ((uuidFormat (uuidMask b)).filter (fun ch => ch != '-'))
      = uuidMask b
  have h1 : ∀ n ∈ (uuidMask b).take 4, n < 256 :=
    fun n hn => hmb n (List.take_subset _ _ hn)
  have h2 : ∀ n ∈ ((uuidMask b).drop 4).take 2, n < 256 :=
    fun n hn => hmb n (List.drop_subset _ _ (List.take_subset _ _ hn))
  have h3 : ∀ n ∈ ((uuidMask b).drop 6).take 2, n < 256 :=
    fun n hn => hmb n (List.drop_subset _ _ (List.take_subset _ _ hn))
  have h4 : ∀ n ∈ ((uuidMask b).drop 8).take 2, n < 256 :=
    fun n hn => hmb n (List.drop_subset _ _ (List.take_subset _ _ hn))
  have h5 : ∀ n ∈ (uuidMask b).drop 10, n < 256 :=
    fun n hn => hmb n (List.drop_subset _ _ hn)
  rw [uuidFormat, List.filter_append, filter_dash_cons,
    List.filter_append, filter_dash_cons,
    List.filter_append, filter_dash_cons,
    List.filter_append, filter_dash_cons,
    filter_hexEncodeList _ h1, filter_hexEncodeList _ h2,
    filter_hexEncodeList _ h3, filter_hexEncodeList _ h4,
    filter_hexEncodeList _ h5,
    ← hexEncodeList_append, ← hexEncodeList_append, ← hexEncodeList_append,
    ← hexEncodeList_append, take_drop_reassemble]
  exact hexDecode_hexEncode _ hmb

/-! ### Claim C3 -/

/-- C3: the business-scoped call's parameter mapping is the caller options
united with `{orderId, bizid, account, mykmsKeyId, method, accessId,
tenantid, token}`, posted to `endpoint ++ "/api/contract/chainCallForBiz"`;
`orderId` is the freshly drawn version-4 UUID, a 36-character string that
is a function of the per-call random bytes only (the same term for every
method, option list and configuration), and two calls whose UUID strings
coincide must have drawn the same masked random bytes — so independent
draws collide only with the UUID's negligible probability. -/
theorem C3_chainCallForBiz_fresh_orderId (c : client) (env : Env) (ctx : Ctx)
    (method : String) (opts : List ChainCallOption) (tok : String)
    (tr : List Request) (b2 : List Nat)
    (h : c.shakehand env ctx = (.ok tok, tr))
    (hlen : env.uuid.length = 16)
    (hb : ∀ n ∈ env.uuid, n < 256)
    (hb2 : ∀ n ∈ b2, n < 256)
    (heq : uuidNewString b2 = uuidNewString env.uuid) :
    (c.chainCallForBiz env ctx method opts).2
        = tr ++ [⟨c.cfg.endpoint ++ CHAIN_CALL_FOR_BIZ,
            xset (xset (xset (xset (xset (xset (xset (xset
              (opts.foldl (fun p f => f p) ([] : X))
              "orderId" (.str (uuidNewString env.uuid)))
              "bizid" (.str c.cfg.bizID)) "account" (.str c.cfg.account))
              "mykmsKeyId" (.str c.cfg.myKmsKeyID)) "method" (.str method))
              "accessId" (.str c.cfg.accessID)) "tenantid" (.str c.cfg.tenantID))
              "token" (.str tok)⟩]
      ∧ (uuidNewString env.uuid).length = 36
      ∧ uuidMask b2 = uuidMask env.uuid := by
  refine ⟨?_, uuidNewString_length env.uuid hlen, ?_⟩
  · simp only [client.chainCallForBiz, h]
    rw [doCall_snd]
  · have hcong := congrArg uuidDecode heq
    rwa [uuidDecode_uuidNewString b2 hb2,
      uuidDecode_uuidNewString env.uuid hb] at hcong

/-- Witness for C3 at the concrete client and environment, with the second
byte draw equal to the first. -/
theorem C3_chainCallForBiz_fresh_orderId_witness :
    (wcli.chainCallForBiz wenvCall wctxLive "Q" []).2
        = [⟨"ep" ++ SHAKE_HAND,
            [("accessId", .str "acc1"), ("time", .str "1700000000000"),
             ("secret", .str (hexEncode [0, 7]))]⟩]
          ++ [⟨wcfg.endpoint ++ CHAIN_CALL_FOR_BIZ,
            xset (xset (xset (xset (xset (xset (xset (xset
              (([] : List ChainCallOption).foldl (fun p f => f p) ([] : X))
              "orderId" (.str (uuidNewString wenvCall.uuid)))
              "bizid" (.str wcfg.bizID)) "account" (.str wcfg.account))
              "mykmsKeyId" (.str wcfg.myKmsKeyID)) "method" (.str "Q"))
              "accessId" (.str wcfg.accessID)) "tenantid" (.str wcfg.tenantID))
              "token" (.str "tok123")⟩]
      ∧ (uuidNewString wenvCall.uuid).length = 36
      ∧ uuidMask (List.range 16) = uuidMask wenvCall.uuid :=
  C3_chainCallForBiz_fresh_orderId wcli wenvCall wctxLive "Q" [] "tok123"
    [⟨"ep" ++ SHAKE_HAND,
      [("accessId", .str "acc1"), ("time", .str "1700000000000"),
       ("secret", .str (hexEncode [0, 7]))]⟩]
    (List.range 16) rfl (by decide) (by decide) (by decide) rfl

end Antchain
